import Mathlib

/-!
# Verification of the WiFi latency tester (`group_sender.py`)

A shallow embedding of the timing/correlation core of `group_sender.py`:
byte-level packet packing and unpacking (`struct.pack` / `struct.unpack`,
little-endian), the response-listener state transition over the shared
pending-commands table and delay-record maps, the discovery-reply parser,
and the per-mode dispatch loops.

Python integers are modelled by `ℕ`/`ℤ`; the float delay computation
(`/ 2 / 1000.0`) is modelled exactly over `ℚ`.  Python dicts keyed by
strings are modelled as functions into `Option`.
-/

namespace GroupSender

/-- Devices are identified by their IP address (a string). -/
abbrev IP := String

/-- `CMD_LED_COLOR = 3` (group_sender.py line 48). -/
def CMD_LED_COLOR : ℕ := 3

/-! ## Little-endian byte strings (`struct` module semantics) -/

/-- Little-endian encoding of a value into `n` bytes, least significant byte
first, as `struct.pack` lays out `I`/`Q`/`H`/`B` fields. -/
def leBytes : ℕ → ℕ → List ℕ
  | 0, _ => []
  | n + 1, v => v % 256 :: leBytes n (v / 256)

/-- Little-endian decoding of a byte string, as `struct.unpack` reads
`I`/`Q`/`H` fields. -/
def leDecode (bs : List ℕ) : ℕ :=
  bs.foldr (fun b acc => b + 256 * acc) 0

/-- `struct.pack("<IQBBBB", seq, t1, cmd, r, g, b)` as built in
`send_color_command` (line 190): a `uint32`, a `uint64` and four `uint8`
fields, little-endian, no padding.  `struct.pack` raises on out-of-range
arguments, modelled by `none`. -/
def struct_pack_IQBBBB (seq t1 cmd r g b : ℕ) : Option (List ℕ) :=
  if seq < 2 ^ 32 ∧ t1 < 2 ^ 64 ∧ cmd < 2 ^ 8 ∧ r < 2 ^ 8 ∧ g < 2 ^ 8 ∧ b < 2 ^ 8 then
    some (leBytes 4 seq ++ leBytes 8 t1 ++ leBytes 1 cmd ++ leBytes 1 r ++
      leBytes 1 g ++ leBytes 1 b)
  else none

/-! ## Response datagram decoding

`struct.unpack("<IQQH", data[:22])` (lines 210 and 259): sequence number
(`uint32`, bytes 0–3), device receive timestamp t2 (`uint64`, bytes 4–11),
device send timestamp t3 (`uint64`, bytes 12–19), reply id (`uint16`,
bytes 20–21). -/

/-- The `seq` field of a response datagram. -/
def seq_of (data : List ℕ) : ℕ := leDecode (data.take 4)

/-- The `t2` field (device receive timestamp) of a response datagram. -/
def t2_of (data : List ℕ) : ℕ := leDecode ((data.drop 4).take 8)

/-- The `t3` field (device send timestamp) of a response datagram. -/
def t3_of (data : List ℕ) : ℕ := leDecode ((data.drop 12).take 8)

/-- A well-formed response datagram, as a device would build it:
`seq:uint32, t2:uint64, t3:uint64, rid:uint16`, 22 bytes little-endian. -/
def response_bytes (seq t2 t3 rid : ℕ) : List ℕ :=
  leBytes 4 seq ++ leBytes 8 t2 ++ leBytes 8 t3 ++ leBytes 2 rid

/-! ## Delay estimator -/

/-- `delay = ((t4 - t1) - (t3 - t2)) / 2 / 1000.0` (lines 214 and 263).
`t1` and `t4` are local microsecond timestamps (Python ints), `t2` and `t3`
are the `uint64` fields of the response; the division is Python float
division, modelled exactly over `ℚ`. -/
def delay_value (t1 : ℤ) (t2 t3 : ℕ) (t4 : ℤ) : ℚ :=
  (((t4 - t1) - ((t3 : ℤ) - (t2 : ℤ)) : ℤ) : ℚ) / 2 / 1000

/-! ## Listener state and its transition -/

/-- The shared mutable state touched by the response listener
(`discovered_devices`, the three delay-record maps, `pending_commands`,
and the continuous listener's `response_queue`).  The `defaultdict(list)`
maps are total functions defaulting to `[]`; the plain dicts are functions
into `Option`. -/
structure ListenerState where
  discovered_devices : IP → Option (String × ℤ)
  wifi6_delay_records : IP → List ℚ
  wifi4_delay_records : IP → List ℚ
  delay_records : IP → List ℚ
  pending_commands : IP × ℕ → Option ℤ
  response_queue : List (IP × ℕ × ℚ)

/-- The per-mode bookkeeping of the hit branch (lines 266–274): when the
responding address was discovered, append the delay to
`wifi6_delay_records` if its mode is 6, else to `wifi4_delay_records`;
an undiscovered address gets no per-mode record. -/
def record_mode (st : ListenerState) (ip : IP) (d : ℚ) : ListenerState :=
  match st.discovered_devices ip with
  | none => st
  | some info =>
    if info.2 = 6 then
      { st with wifi6_delay_records :=
          fun j => if j = ip then st.wifi6_delay_records j ++ [d]
                   else st.wifi6_delay_records j }
    else
      { st with wifi4_delay_records :=
          fun j => if j = ip then st.wifi4_delay_records j ++ [d]
                   else st.wifi4_delay_records j }

/-- The hit branch of `response_listener_continuous` (lines 263–285): the
per-mode bookkeeping, then always append to `delay_records`, append
`(ip, seq, delay)` to the response queue, and delete the pending entry
(`del pending_commands[key]`). -/
def record_sample (st : ListenerState) (ip : IP) (seq : ℕ) (d : ℚ) : ListenerState :=
  let st1 := record_mode st ip d
  { st1 with
    delay_records :=
      fun j => if j = ip then st1.delay_records j ++ [d] else st1.delay_records j
    response_queue := st1.response_queue ++ [(ip, seq, d)]
    pending_commands :=
      fun k => if k = (ip, seq) then none else st1.pending_commands k }

/-- Processing of one received datagram by `response_listener_continuous`
(lines 254–289): reject payloads shorter than 22 bytes (log only), unpack
the header, look up `(ip, seq)` in `pending_commands`; on a hit compute the
delay and record the sample, on a miss log and discard. -/
def process_datagram (st : ListenerState) (ip : IP) (data : List ℕ) (t4 : ℤ) :
    ListenerState :=
  if 22 ≤ data.length then
    match st.pending_commands (ip, seq_of data) with
    | some t1 =>
        record_sample st ip (seq_of data)
          (delay_value t1 (t2_of data) (t3_of data) t4)
    | none => st
  else st

/-- The loop guard of the bounded-timeout listener `response_listener`
(line 204): `while not stop_event.is_set() and time.time() < end_time`.
`time.time()` values are modelled as rationals. -/
def listener_should_continue (stop : Bool) (now end_time : ℚ) : Bool :=
  !stop && decide (now < end_time)

/-- One listener loop body applied to the outcome of the receive call:
`none` models `socket.timeout` (the body is `continue`, state unchanged,
lines 239–240); `some (ip, data, t4)` models a received datagram with its
local receive timestamp. -/
def listener_step (st : ListenerState) (recv : Option (IP × List ℕ × ℤ)) :
    ListenerState :=
  match recv with
  | none => st
  | some r => process_datagram st r.1 r.2.1 r.2.2

/-! ## Discovery-reply parsing

Python string operations are modelled on the character list of the string
(`String.data`): `py_strip` is `str.strip()`, `py_split` is
`str.split(sep)` for a one-character separator, and prefix testing is
`List.isPrefixOf`. -/

/-- Python `str.strip()`: remove leading and trailing whitespace. -/
def py_strip (cs : List Char) : List Char :=
  ((cs.dropWhile Char.isWhitespace).reverse.dropWhile Char.isWhitespace).reverse

/-- Python `str.split(sep)` for a single-character separator: split at every
occurrence, keeping empty fields; the result is always nonempty. -/
def py_split (sep : Char) : List Char → List (List Char)
  | [] => [[]]
  | c :: rest =>
    match py_split sep rest with
    | [] => [[c]]
    | h :: t => if c = sep then [] :: h :: t else (c :: h) :: t

/-- Tail of a valid Python integer literal body: digits, with single
underscores allowed only between digits (`int("1_0") = 10`,
`int("1__0")` and `int("1_")` raise). -/
def digitTail : List Char → Bool
  | [] => true
  | '_' :: c :: rest => c.isDigit && digitTail rest
  | '_' :: [] => false
  | c :: rest => c.isDigit && digitTail rest

/-- A valid Python integer literal body: nonempty, starts with a digit,
then `digitTail`. -/
def validIntBody : List Char → Bool
  | [] => false
  | c :: rest => c.isDigit && digitTail rest

/-- Numeric value of a digit string, ignoring underscores. -/
def digitsVal (cs : List Char) : ℕ :=
  (cs.filter (fun c => c ≠ '_')).foldl (fun acc c => acc * 10 + (c.toNat - 48)) 0

/-- Python `int(s)` on an already-stripped character string: optional sign
followed by decimal digits (with single underscores between digits);
`none` models the `ValueError` raised on anything else. -/
def pythonInt? : List Char → Option ℤ
  | '+' :: rest => if validIntBody rest then some (digitsVal rest : ℤ) else none
  | '-' :: rest => if validIntBody rest then some (-(digitsVal rest : ℤ)) else none
  | cs => if validIntBody cs then some (digitsVal cs : ℤ) else none

/-- Parsing of one discovery reply in `send_broadcast_and_collect_responses`
(lines 153–164): strip the decoded payload, require the
`ESP_RECEIVER_ID:` marker, split on `:`; field 1 (stripped) is the short
id; the mode defaults to 6 and, when a third field exists, is replaced by
`int(parts[2].strip())` unless that raises `ValueError`, in which case a
warning is logged (the `Bool` component) and the default 6 is kept. -/
def parse_reply (raw : String) : Option (String × ℤ) × Bool :=
  let message := py_strip raw.data
  if "ESP_RECEIVER_ID:".data.isPrefixOf message then
    let parts := py_split ':' message
    let short_id := py_strip (parts.getD 1 [])
    match parts.get? 2 with
    | some p =>
      match pythonInt? (py_strip p) with
      | some m => (some (String.mk short_id, m), false)
      | none => (some (String.mk short_id, 6), true)
    | none => (some (String.mk short_id, 6), false)
  else (none, false)

/-- Registration of one reply (lines 166–167): only when the reply parses
and `ip not in discovered_devices` is `(short_id, wifi_mode)` stored;
replies from an already-known address are ignored. -/
def discovery_step (devices : IP → Option (String × ℤ)) (r : IP × String) :
    IP → Option (String × ℤ) :=
  match (parse_reply r.2).1 with
  | none => devices
  | some entry =>
    match devices r.1 with
    | some _ => devices
    | none => fun j => if j = r.1 then some entry else devices j

/-- The discovery collection loop folded over the sequence of received
replies, starting from the empty `discovered_devices` dict. -/
def run_discovery (rs : List (IP × String)) : IP → Option (String × ℤ) :=
  rs.foldl discovery_step fun _ => none

/-- The first reply in `rs` from address `a` that parses as a device
announcement, as a specification for first-reply-wins registration. -/
def first_valid_reply (a : IP) (rs : List (IP × String)) : Option (String × ℤ) :=
  rs.findSome? fun r => if r.1 = a then (parse_reply r.2).1 else none

/-! ## Dispatcher -/

/-- The per-round send loop of `send_commands_to_devices_by_type`
(lines 551–553): for each target device, `send_color_command` captures a
timestamp and calls `sock.sendto`, then the caller registers
`pending_commands[(ip, seq)] = t1`.  `sendOk ip = false` models `sendto`
raising: `send_color_command` has no exception handler, so the exception
propagates out of the loop — nothing is registered for the failing device
and no further device is processed.  Returns the final pending table, the
list of devices actually sent to, and whether the batch completed. -/
def send_batch (sendOk : IP → Bool) (tstamp : IP → ℤ) (seq : ℕ) :
    List IP → (IP × ℕ → Option ℤ) → (IP × ℕ → Option ℤ) × List IP × Bool
  | [], pending => (pending, [], true)
  | ip :: rest, pending =>
    if sendOk ip then
      let res := send_batch sendOk tstamp seq rest
        (fun k => if k = (ip, seq) then some (tstamp ip) else pending k)
      (res.1, ip :: res.2.1, res.2.2)
    else (pending, [], false)

/-- The device filter of `send_commands_to_devices_by_type` (lines 541–542):
the addresses whose discovered info has `info[1] == wifi_mode`. -/
def target_ips (devices : IP → Option (String × ℤ)) (dom : List IP) (mode : ℤ) :
    List IP :=
  dom.filter fun ip =>
    match devices ip with
    | some info => info.2 == mode
    | none => false

/-- All `(ip, seq)` keys a dispatch stream for `mode` can register over `M`
rounds: `run_wifi_type_test` uses `seq = base + i` in round `i`
(lines 568–570) and registers `(ip, seq)` for every target device
(line 553). -/
def stream_keys (devices : IP → Option (String × ℤ)) (dom : List IP) (mode : ℤ)
    (base M : ℕ) : List (IP × ℕ) :=
  (List.range M).flatMap fun i => (target_ips devices dom mode).map fun ip => (ip, base + i)

/-! ## Concrete states for witnesses and counterexamples -/

/-- A listener state with empty record maps and queue and the given pending
table. -/
def mkState (pending : IP × ℕ → Option ℤ) : ListenerState where
  discovered_devices := fun _ => none
  wifi6_delay_records := fun _ => []
  wifi4_delay_records := fun _ => []
  delay_records := fun _ => []
  pending_commands := pending
  response_queue := []

/-- State with no pending exchange at all. -/
def emptyState : ListenerState := mkState fun _ => none

/-- State with a single pending exchange `("10.0.0.5", 5) ↦ t1 = 10000`. -/
def oneKeyState : ListenerState :=
  mkState fun k => if k = ("10.0.0.5", 5) then some 10000 else none

/-- State with two pending exchanges for the same device, sequence 1000 sent
in round 0 and sequence 1001 sent in round 1, both with `t1 = 0`. -/
def twoKeyState : ListenerState :=
  mkState fun k =>
    if k = ("10.0.0.5", 1000) then some 0
    else if k = ("10.0.0.5", 1001) then some 0 else none

/-- The response for the later-sent sequence 1001 arrives first (local
receive time 10000 µs, delay 5 ms), then the response for the earlier-sent
sequence 1000 (local receive time 4000 µs, delay 2 ms). -/
def outOfOrderFinal : ListenerState :=
  process_datagram
    (process_datagram twoKeyState "10.0.0.5" (response_bytes 1001 0 0 0) 10000)
    "10.0.0.5" (response_bytes 1000 0 0 0) 4000

/-- A discovered-device map with a single WiFi 6 device at `10.0.0.5`. -/
def oneWifi6Device : IP → Option (String × ℤ) :=
  fun ip => if ip = "10.0.0.5" then some ("abc", 6) else none

/-- A dispatch round over devices `10.0.0.7` then `10.0.0.8` with sequence 7,
where the UDP send to `10.0.0.7` fails, starting from an empty pending
table. -/
def failedSendBatch : (IP × ℕ → Option ℤ) × List IP × Bool :=
  send_batch (fun ip => ip != "10.0.0.7") (fun _ => 0) 7
    ["10.0.0.7", "10.0.0.8"] fun _ => none

/-! ## Helper lemmas: byte strings -/

theorem leBytes_length (n v : ℕ) : (leBytes n v).length = n := by
  induction n generalizing v with
  | zero => rfl
  | succ n ih => simp [leBytes, ih]

theorem leDecode_leBytes (n v : ℕ) : leDecode (leBytes n v) = v % 256 ^ n := by
  induction n generalizing v with
  | zero => simp [leBytes, leDecode, Nat.mod_one]
  | succ n ih =>
    have h256 : 256 ^ (n + 1) = 256 * 256 ^ n := by ring
    simp only [leBytes, leDecode, List.foldr_cons]
    rw [show (leBytes n (v / 256)).foldr (fun b acc => b + 256 * acc) 0 =
          leDecode (leBytes n (v / 256)) from rfl, ih, h256, Nat.mod_mul]

theorem leDecode_leBytes_of_lt {n v : ℕ} (h : v < 256 ^ n) :
    leDecode (leBytes n v) = v := by
  rw [leDecode_leBytes, Nat.mod_eq_of_lt h]

/-! ## Helper lemmas: the listener transition -/

theorem record_mode_delay_records (st : ListenerState) (ip : IP) (d : ℚ) :
    (record_mode st ip d).delay_records = st.delay_records := by
  unfold record_mode
  cases st.discovered_devices ip with
  | none => rfl
  | some info => dsimp only; split <;> rfl

theorem record_mode_pending_commands (st : ListenerState) (ip : IP) (d : ℚ) :
    (record_mode st ip d).pending_commands = st.pending_commands := by
  unfold record_mode
  cases st.discovered_devices ip with
  | none => rfl
  | some info => dsimp only; split <;> rfl

theorem record_mode_response_queue (st : ListenerState) (ip : IP) (d : ℚ) :
    (record_mode st ip d).response_queue = st.response_queue := by
  unfold record_mode
  cases st.discovered_devices ip with
  | none => rfl
  | some info => dsimp only; split <;> rfl

theorem record_sample_delay_records (st : ListenerState) (ip : IP) (s : ℕ) (d : ℚ) :
    (record_sample st ip s d).delay_records =
      fun j => if j = ip then st.delay_records j ++ [d] else st.delay_records j := by
  show (fun j => if j = ip then (record_mode st ip d).delay_records j ++ [d]
        else (record_mode st ip d).delay_records j) = _
  rw [record_mode_delay_records]

theorem record_sample_pending_commands (st : ListenerState) (ip : IP) (s : ℕ) (d : ℚ) :
    (record_sample st ip s d).pending_commands =
      fun k => if k = (ip, s) then none else st.pending_commands k := by
  show (fun k => if k = (ip, s) then none
        else (record_mode st ip d).pending_commands k) = _
  rw [record_mode_pending_commands]

theorem process_datagram_miss (st : ListenerState) (ip : IP) (data : List ℕ) (t4 : ℤ)
    (h : st.pending_commands (ip, seq_of data) = none) :
    process_datagram st ip data t4 = st := by
  unfold process_datagram
  split
  · rw [h]
  · rfl

theorem process_datagram_hit (st : ListenerState) (ip : IP) (data : List ℕ)
    (t4 t1 : ℤ) (hlen : 22 ≤ data.length)
    (h : st.pending_commands (ip, seq_of data) = some t1) :
    process_datagram st ip data t4 =
      record_sample st ip (seq_of data)
        (delay_value t1 (t2_of data) (t3_of data) t4) := by
  unfold process_datagram
  rw [if_pos hlen, h]

/-! ## Helper lemmas: discovery -/

theorem discovery_step_of_known (devices : IP → Option (String × ℤ))
    (r : IP × String) (a : IP) (e : String × ℤ) (h : devices a = some e) :
    discovery_step devices r a = some e := by
  unfold discovery_step
  cases (parse_reply r.2).1 with
  | none => exact h
  | some entry =>
    cases hd : devices r.1 with
    | some _ => exact h
    | none =>
      dsimp only
      by_cases hj : a = r.1
      · rw [hj, hd] at h; exact absurd h (by simp)
      · simp [hj, h]

theorem discovery_step_of_other (devices : IP → Option (String × ℤ))
    (r : IP × String) (a : IP) (h : r.1 ≠ a) :
    discovery_step devices r a = devices a := by
  unfold discovery_step
  cases (parse_reply r.2).1 with
  | none => rfl
  | some entry =>
    cases devices r.1 with
    | some _ => rfl
    | none => dsimp only; rw [if_neg fun hc => h hc.symm]

theorem foldl_discovery_of_known (rs : List (IP × String))
    (devices : IP → Option (String × ℤ)) (a : IP) (e : String × ℤ)
    (h : devices a = some e) :
    rs.foldl discovery_step devices a = some e := by
  induction rs generalizing devices with
  | nil => exact h
  | cons r t ih =>
    rw [List.foldl_cons]
    exact ih _ (discovery_step_of_known devices r a e h)

theorem foldl_discovery_of_unknown (rs : List (IP × String))
    (devices : IP → Option (String × ℤ)) (a : IP) (h : devices a = none) :
    rs.foldl discovery_step devices a = first_valid_reply a rs := by
  induction rs generalizing devices with
  | nil => exact h
  | cons r t ih =>
    rw [List.foldl_cons]
    unfold first_valid_reply
    rw [List.findSome?_cons]
    by_cases hra : r.1 = a
    · rw [if_pos hra]
      cases hp : (parse_reply r.2).1 with
      | none =>
        have hstep : discovery_step devices r = devices := by
          unfold discovery_step; rw [hp]
        rw [hstep]
        exact ih devices h
      | some entry =>
        have hstep : discovery_step devices r =
            fun j => if j = r.1 then some entry else devices j := by
          unfold discovery_step
          rw [hp, hra, h]
        rw [hstep]
        exact foldl_discovery_of_known t _ a entry (by simp [hra])
    · rw [if_neg hra]
      exact ih _ ((discovery_step_of_other devices r a hra).trans h)

/-! ## Helper lemmas: dispatch streams -/

theorem mode_of_mem_stream_keys {devices : IP → Option (String × ℤ)} {dom : List IP}
    {mode : ℤ} {base M : ℕ} {k : IP × ℕ}
    (hk : k ∈ stream_keys devices dom mode base M) :
    ∃ info, devices k.1 = some info ∧ info.2 = mode := by
  unfold stream_keys at hk
  rw [List.mem_flatMap] at hk
  obtain ⟨i, -, hmem⟩ := hk
  rw [List.mem_map] at hmem
  obtain ⟨ip, hip, rfl⟩ := hmem
  unfold target_ips at hip
  rw [List.mem_filter] at hip
  obtain ⟨-, hpred⟩ := hip
  cases hd : devices ip with
  | none => rw [hd] at hpred; simp at hpred
  | some info =>
    rw [hd] at hpred
    exact ⟨info, rfl, by simpa using hpred⟩

theorem send_batch_failure_head (sendOk : IP → Bool) (tstamp : IP → ℤ) (seq : ℕ)
    (ip : IP) (rest : List IP) (pending : IP × ℕ → Option ℤ)
    (h : sendOk ip = false) :
    send_batch sendOk tstamp seq (ip :: rest) pending = (pending, [], false) := by
  unfold send_batch
  rw [h]
  rfl

/-! ## Claim C1 -/

/-- C1: for every four-timestamp tuple the delay sample is the value of the
pure function `delay_value`, which equals `(((t4 - t1) - (t3 - t2)) / 2) /
1000` exactly over `ℚ`; for `t1 = 1000, t2 = 1050, t3 = 1060, t4 = 1120`
it is `0.055` ms; and a resolved response whose delay is negative is still
appended to the Sample Store as-is, with no clamping or rejection. -/
theorem delay_estimator_exact :
    (∀ (t1 : ℤ) (t2 t3 : ℕ) (t4 : ℤ),
      delay_value t1 t2 t3 t4 =
        (((t4 : ℚ) - (t1 : ℚ)) - ((t3 : ℚ) - (t2 : ℚ))) / 2 / 1000)
    ∧ delay_value 1000 1050 1060 1120 = 55 / 1000
    ∧ (∀ (st : ListenerState) (ip : IP) (data : List ℕ) (t4 t1 : ℤ),
        22 ≤ data.length →
        st.pending_commands (ip, seq_of data) = some t1 →
        delay_value t1 (t2_of data) (t3_of data) t4 < 0 →
        (process_datagram st ip data t4).delay_records ip =
          st.delay_records ip ++ [delay_value t1 (t2_of data) (t3_of data) t4]) := by
  refine ⟨fun t1 t2 t3 t4 => ?_, by norm_num [delay_value], ?_⟩
  · unfold delay_value
    push_cast
    ring
  · intro st ip data t4 t1 hlen hpend _
    rw [process_datagram_hit st ip data t4 t1 hlen hpend,
      record_sample_delay_records]
    simp

/-- C1 witness: a concrete exchange with `t1 = 10000` and `t4 = 0` resolves
to the negative sample `-5` ms and is recorded as-is. -/
theorem delay_estimator_exact_witness :
    22 ≤ (response_bytes 5 0 0 0).length ∧
    oneKeyState.pending_commands ("10.0.0.5", seq_of (response_bytes 5 0 0 0)) =
      some 10000 ∧
    delay_value 10000 (t2_of (response_bytes 5 0 0 0))
      (t3_of (response_bytes 5 0 0 0)) 0 < 0 ∧
    (process_datagram oneKeyState "10.0.0.5" (response_bytes 5 0 0 0) 0).delay_records
        "10.0.0.5" =
      oneKeyState.delay_records "10.0.0.5" ++
        [delay_value 10000 (t2_of (response_bytes 5 0 0 0))
          (t3_of (response_bytes 5 0 0 0)) 0] :=
  have h1 : 22 ≤ (response_bytes 5 0 0 0).length := by decide
  have h2 : oneKeyState.pending_commands
      ("10.0.0.5", seq_of (response_bytes 5 0 0 0)) = some 10000 := by decide
  have ht2 : t2_of (response_bytes 5 0 0 0) = 0 := by decide
  have ht3 : t3_of (response_bytes 5 0 0 0) = 0 := by decide
  have h3 : delay_value 10000 (t2_of (response_bytes 5 0 0 0))
      (t3_of (response_bytes 5 0 0 0)) 0 < 0 := by
    rw [ht2, ht3]; norm_num [delay_value]
  ⟨h1, h2, h3,
    delay_estimator_exact.2.2 oneKeyState "10.0.0.5" (response_bytes 5 0 0 0)
      0 10000 h1 h2 h3⟩

/-! ## Claim C2 -/

/-- C2: a response datagram whose `(source address, sequence)` key is absent
from `pending_commands` leaves the listener state completely unchanged: no
delay-record map gains an entry, `pending_commands` gains no entry, and the
response queue is untouched. -/
theorem unknown_key_response_discarded (st : ListenerState) (ip : IP)
    (data : List ℕ) (t4 : ℤ)
    (h : st.pending_commands (ip, seq_of data) = none) :
    process_datagram st ip data t4 = st :=
  process_datagram_miss st ip data t4 h

/-- C2 witness: a response with sequence 99 from `10.0.0.5` arriving at a
state with no pending entry for `(10.0.0.5, 99)` is discarded. -/
theorem unknown_key_response_discarded_witness :
    emptyState.pending_commands ("10.0.0.5", seq_of (response_bytes 99 0 0 0)) =
      none ∧
    process_datagram emptyState "10.0.0.5" (response_bytes 99 0 0 0) 0 =
      emptyState :=
  have h : emptyState.pending_commands
      ("10.0.0.5", seq_of (response_bytes 99 0 0 0)) = none := rfl
  ⟨h, unknown_key_response_discarded emptyState "10.0.0.5"
      (response_bytes 99 0 0 0) 0 h⟩

/-! ## Claim C3 -/

/-- C3: an exchange key resolves at most once: the first matching response
deletes the `pending_commands` entry, and any further datagram carrying the
same `(address, sequence)` key leaves the state unchanged — no second
sample, no re-inserted key. -/
theorem exchange_resolves_at_most_once (st : ListenerState) (ip : IP)
    (data : List ℕ) (t4 t1 : ℤ) (hlen : 22 ≤ data.length)
    (h : st.pending_commands (ip, seq_of data) = some t1) :
    (process_datagram st ip data t4).pending_commands (ip, seq_of data) = none ∧
    ∀ (data' : List ℕ) (t4' : ℤ), seq_of data' = seq_of data →
      process_datagram (process_datagram st ip data t4) ip data' t4' =
        process_datagram st ip data t4 := by
  have hp := process_datagram_hit st ip data t4 t1 hlen h
  constructor
  · rw [hp, record_sample_pending_commands]
    simp
  · intro data' t4' hseq
    apply process_datagram_miss
    rw [hp, record_sample_pending_commands, hseq]
    simp

/-- C3 witness: the pending exchange `(10.0.0.5, 5)` is resolved by a first
response and a duplicate of that response is then discarded. -/
theorem exchange_resolves_at_most_once_witness :
    22 ≤ (response_bytes 5 0 0 0).length ∧
    oneKeyState.pending_commands ("10.0.0.5", seq_of (response_bytes 5 0 0 0)) =
      some 10000 ∧
    (process_datagram oneKeyState "10.0.0.5" (response_bytes 5 0 0 0)
        20000).pending_commands ("10.0.0.5", seq_of (response_bytes 5 0 0 0)) =
      none ∧
    process_datagram
        (process_datagram oneKeyState "10.0.0.5" (response_bytes 5 0 0 0) 20000)
        "10.0.0.5" (response_bytes 5 0 0 0) 30000 =
      process_datagram oneKeyState "10.0.0.5" (response_bytes 5 0 0 0) 20000 :=
  have h1 : 22 ≤ (response_bytes 5 0 0 0).length := by decide
  have h2 : oneKeyState.pending_commands
      ("10.0.0.5", seq_of (response_bytes 5 0 0 0)) = some 10000 := by decide
  have hmain := exchange_resolves_at_most_once oneKeyState "10.0.0.5"
    (response_bytes 5 0 0 0) 20000 10000 h1 h2
  ⟨h1, h2, hmain.1, hmain.2 (response_bytes 5 0 0 0) 30000 rfl⟩

/-! ## Claim C4 -/

/-- C4 counterexample: `struct.pack("<IQBBBB", ...)` produces a 16-byte
message (4 + 8 + 1 + 1 + 1 + 1), not 17 bytes as the claim states, shown
at the concrete input `seq = 0, t1 = 0, cmd = 3, r = 255, g = 0, b = 0`. -/
theorem command_packet_not_17_bytes :
    (struct_pack_IQBBBB 0 0 3 255 0 0).map List.length = some 16 ∧
    (16 : ℕ) ≠ 17 := by
  constructor
  · decide
  · decide

/-- C4 amended: for every in-range `(sequence, timestamp, command, r, g, b)`
input the packed command is the fixed little-endian layout
`[sequence:uint32][sendTimestampMicros:uint64][commandCode:uint8][param0]
[param1][param2]` totalling exactly 16 bytes with no padding: bytes 0–3
decode to the sequence, bytes 4–11 to the timestamp, and bytes 12–15 are
the command code and the three parameters. -/
theorem command_packet_layout (seq t1 cmd r g b : ℕ)
    (hs : seq < 2 ^ 32) (ht : t1 < 2 ^ 64) (hc : cmd < 2 ^ 8) (hr : r < 2 ^ 8)
    (hg : g < 2 ^ 8) (hb : b < 2 ^ 8) :
    ∃ bs, struct_pack_IQBBBB seq t1 cmd r g b = some bs ∧
      bs.length = 16 ∧
      leDecode (bs.take 4) = seq ∧
      leDecode ((bs.drop 4).take 8) = t1 ∧
      bs.drop 12 = [cmd, r, g, b] := by
  have h32 : (256 : ℕ) ^ 4 = 2 ^ 32 := by norm_num
  have h64 : (256 : ℕ) ^ 8 = 2 ^ 64 := by norm_num
  have hc' : cmd < 256 := by norm_num at hc; exact hc
  have hr' : r < 256 := by norm_num at hr; exact hr
  have hg' : g < 256 := by norm_num at hg; exact hg
  have hb' : b < 256 := by norm_num at hb; exact hb
  refine ⟨leBytes 4 seq ++ (leBytes 8 t1 ++ (leBytes 1 cmd ++ (leBytes 1 r ++
    (leBytes 1 g ++ leBytes 1 b)))), ?_, ?_, ?_, ?_, ?_⟩
  · unfold struct_pack_IQBBBB
    rw [if_pos ⟨hs, ht, hc, hr, hg, hb⟩]
    simp [List.append_assoc]
  · simp [leBytes_length]
  · rw [List.take_left' (leBytes_length 4 seq)]
    exact leDecode_leBytes_of_lt (h32 ▸ hs)
  · rw [List.drop_left' (leBytes_length 4 seq),
      List.take_left' (leBytes_length 8 t1)]
    exact leDecode_leBytes_of_lt (h64 ▸ ht)
  · rw [show (12 : ℕ) = 4 + 8 from rfl, ← List.drop_drop,
      List.drop_left' (leBytes_length 4 seq),
      List.drop_left' (leBytes_length 8 t1)]
    simp [leBytes, Nat.mod_eq_of_lt, hc', hr', hg', hb']

/-- C4 witness: the layout theorem applied to the concrete command
`seq = 7, t1 = 123456, cmd = CMD_LED_COLOR, rgb = (255, 0, 16)`. -/
theorem command_packet_layout_witness :
    7 < 2 ^ 32 ∧ 123456 < 2 ^ 64 ∧ CMD_LED_COLOR < 2 ^ 8 ∧ 255 < 2 ^ 8 ∧
    0 < 2 ^ 8 ∧ 16 < 2 ^ 8 ∧
    ∃ bs, struct_pack_IQBBBB 7 123456 CMD_LED_COLOR 255 0 16 = some bs ∧
      bs.length = 16 ∧
      leDecode (bs.take 4) = 7 ∧
      leDecode ((bs.drop 4).take 8) = 123456 ∧
      bs.drop 12 = [CMD_LED_COLOR, 255, 0, 16] :=
  have h1 : (7 : ℕ) < 2 ^ 32 := by decide
  have h2 : (123456 : ℕ) < 2 ^ 64 := by decide
  have h3 : CMD_LED_COLOR < 2 ^ 8 := by decide
  have h4 : (255 : ℕ) < 2 ^ 8 := by decide
  have h5 : (0 : ℕ) < 2 ^ 8 := by decide
  have h6 : (16 : ℕ) < 2 ^ 8 := by decide
  ⟨h1, h2, h3, h4, h5, h6,
    command_packet_layout 7 123456 CMD_LED_COLOR 255 0 16 h1 h2 h3 h4 h5 h6⟩

/-! ## Claim C5 -/

/-- C5 counterexample: with devices `10.0.0.7` then `10.0.0.8` and the send
to `10.0.0.7` failing, the batch reports failure, no device is sent to
(in particular the remaining send to `10.0.0.8` never executes), and
neither exchange — not even the failed one — is registered in the pending
table, contradicting the claim that the failure is non-fatal and the
failed exchange is still registered. -/
theorem send_failure_not_contained :
    failedSendBatch.2.2 = false ∧
    failedSendBatch.2.1 = [] ∧
    failedSendBatch.1 ("10.0.0.7", 7) = none ∧
    failedSendBatch.1 ("10.0.0.8", 7) = none := by
  refine ⟨?_, ?_, ?_, ?_⟩ <;> decide

/-- C5 amended: `send_color_command` has no exception handler, so a failing
UDP send propagates out of the dispatch loop: the failed exchange is not
registered in the pending table, no further device of the batch is sent
to, and the batch aborts. -/
theorem send_failure_aborts_batch (sendOk : IP → Bool) (tstamp : IP → ℤ)
    (seq : ℕ) (ip : IP) (rest : List IP) (pending : IP × ℕ → Option ℤ)
    (h : sendOk ip = false) :
    send_batch sendOk tstamp seq (ip :: rest) pending = (pending, [], false) :=
  send_batch_failure_head sendOk tstamp seq ip rest pending h

/-- C5 witness: the amended theorem applied to the concrete failing batch. -/
theorem send_failure_aborts_batch_witness :
    (fun ip : IP => ip != "10.0.0.7") "10.0.0.7" = false ∧
    send_batch (fun ip : IP => ip != "10.0.0.7") (fun _ => 0) 7
        ["10.0.0.7", "10.0.0.8"] (fun _ => none) =
      (fun _ => none, [], false) :=
  have h : (fun ip : IP => ip != "10.0.0.7") "10.0.0.7" = false := by decide
  ⟨h, send_failure_aborts_batch (fun ip : IP => ip != "10.0.0.7") (fun _ => 0) 7
      "10.0.0.7" ["10.0.0.8"] (fun _ => none) h⟩

/-! ## Claim C6 -/

/-- C6 counterexample: the listener appends samples at resolution time, so
with exchanges `(10.0.0.5, 1000)` (round 0, sample 2 ms) and
`(10.0.0.5, 1001)` (round 1, sample 5 ms) pending, the interleaving in
which the response for 1001 arrives before the response for 1000 yields
the per-device sequence `[5, 2]` — response-arrival order, which differs
from the send-order sequence `[2, 5]` the claim requires for every
interleaving. -/
theorem sample_order_not_send_order :
    outOfOrderFinal.delay_records "10.0.0.5" = [5, 2] ∧
    ([5, 2] : List ℚ) ≠ [2, 5] := by
  have hlenB : 22 ≤ (response_bytes 1001 0 0 0).length := by decide
  have hlenA : 22 ≤ (response_bytes 1000 0 0 0).length := by decide
  have hpB : twoKeyState.pending_commands
      ("10.0.0.5", seq_of (response_bytes 1001 0 0 0)) = some 0 := by decide
  have h1 := process_datagram_hit twoKeyState "10.0.0.5"
    (response_bytes 1001 0 0 0) 10000 0 hlenB hpB
  have hpA : (process_datagram twoKeyState "10.0.0.5" (response_bytes 1001 0 0 0)
      10000).pending_commands ("10.0.0.5", seq_of (response_bytes 1000 0 0 0)) =
      some 0 := by
    rw [h1, record_sample_pending_commands]
    decide
  have h2 := process_datagram_hit
    (process_datagram twoKeyState "10.0.0.5" (response_bytes 1001 0 0 0) 10000)
    "10.0.0.5" (response_bytes 1000 0 0 0) 4000 0 hlenA hpA
  have e1 : delay_value 0 (t2_of (response_bytes 1001 0 0 0))
      (t3_of (response_bytes 1001 0 0 0)) 10000 = 5 := by
    have ht2 : t2_of (response_bytes 1001 0 0 0) = 0 := by decide
    have ht3 : t3_of (response_bytes 1001 0 0 0) = 0 := by decide
    rw [ht2, ht3]; norm_num [delay_value]
  have e2 : delay_value 0 (t2_of (response_bytes 1000 0 0 0))
      (t3_of (response_bytes 1000 0 0 0)) 4000 = 2 := by
    have ht2 : t2_of (response_bytes 1000 0 0 0) = 0 := by decide
    have ht3 : t3_of (response_bytes 1000 0 0 0) = 0 := by decide
    rw [ht2, ht3]; norm_num [delay_value]
  constructor
  · unfold outOfOrderFinal
    rw [h2, record_sample_delay_records]
    simp only [if_pos rfl]
    rw [h1, record_sample_delay_records]
    simp only [if_pos rfl]
    rw [e1, e2]
    simp [twoKeyState, mkState]
  · norm_num

/-- C6 amended: per-device delay samples are recorded in response-resolution
(arrival) order: each matching response appends its sample at the end of
the device's `delay_records` list at the time it is processed; the order
coincides with send order only for interleavings in which each device's
responses arrive in send order. -/
theorem samples_appended_at_resolution (st : ListenerState) (ip : IP)
    (data : List ℕ) (t4 t1 : ℤ) (hlen : 22 ≤ data.length)
    (hpend : st.pending_commands (ip, seq_of data) = some t1) :
    (process_datagram st ip data t4).delay_records ip =
      st.delay_records ip ++
        [delay_value t1 (t2_of data) (t3_of data) t4] := by
  rw [process_datagram_hit st ip data t4 t1 hlen hpend,
    record_sample_delay_records]
  simp

/-- C6 witness: the first arriving response (for the later-sent sequence
1001) appends its sample at the tail of the device's list. -/
theorem samples_appended_at_resolution_witness :
    22 ≤ (response_bytes 1001 0 0 0).length ∧
    twoKeyState.pending_commands
        ("10.0.0.5", seq_of (response_bytes 1001 0 0 0)) = some 0 ∧
    (process_datagram twoKeyState "10.0.0.5" (response_bytes 1001 0 0 0)
        10000).delay_records "10.0.0.5" =
      twoKeyState.delay_records "10.0.0.5" ++
        [delay_value 0 (t2_of (response_bytes 1001 0 0 0))
          (t3_of (response_bytes 1001 0 0 0)) 10000] :=
  have hlen : 22 ≤ (response_bytes 1001 0 0 0).length := by decide
  have hp : twoKeyState.pending_commands
      ("10.0.0.5", seq_of (response_bytes 1001 0 0 0)) = some 0 := by decide
  ⟨hlen, hp, samples_appended_at_resolution twoKeyState "10.0.0.5"
      (response_bytes 1001 0 0 0) 10000 0 hlen hp⟩

/-! ## Claim C7 -/

/-- C7 counterexample: the bounded-timeout listener loop guard
`while not stop_event.is_set() and time.time() < end_time` is false —
the loop exits — as soon as the stop signal is set, even though the
overall deadline (here `end_time = 100` at `now = 0`) has not elapsed;
it also exits at the deadline with the stop signal still clear.  Both
refute "exits only when the stop signal is set AND the deadline has
elapsed". -/
theorem listener_exit_not_conjunction :
    listener_should_continue true 0 100 = false ∧ (0 : ℚ) < 100 ∧
    listener_should_continue false 100 100 = false ∧ false ≠ true := by
  refine ⟨?_, by norm_num, ?_, by simp⟩
  · simp [listener_should_continue]
  · simp [listener_should_continue]

/-- C7 amended: the bounded-timeout listener loop exits exactly when the
stop signal is set OR the run's overall listen deadline has elapsed
(whichever happens first), and a receive call that times out empty never
exits the loop: it leaves the state unchanged and the guard is
re-evaluated. -/
theorem listener_exit_condition :
    (∀ (stop : Bool) (now e : ℚ),
      listener_should_continue stop now e = false ↔ stop = true ∨ e ≤ now)
    ∧ ∀ st : ListenerState, listener_step st none = st := by
  constructor
  · intro stop now e
    cases stop <;> simp [listener_should_continue, not_lt]
  · intro st
    rfl

/-! ## Claim C8 -/

/-- C8: two concurrent dispatch streams — the WiFi 6 stream using sequence
numbers `1000 + i` and the WiFi 4 stream using `2000 + i` over any number
`M` of rounds — never register the same `(device, sequence)` key in the
shared pending table: no key the WiFi 6 stream can insert is a key the
WiFi 4 stream can insert, for every discovered-device map and every `M`. -/
theorem streams_register_disjoint_keys (devices : IP → Option (String × ℤ))
    (dom : List IP) (M : ℕ) :
    ∀ k ∈ stream_keys devices dom 6 1000 M,
      k ∉ stream_keys devices dom 4 2000 M := by
  intro k hk6 hk4
  obtain ⟨info6, hd6, hm6⟩ := mode_of_mem_stream_keys hk6
  obtain ⟨info4, hd4, hm4⟩ := mode_of_mem_stream_keys hk4
  rw [hd6] at hd4
  injection hd4 with heq
  rw [heq, hm4] at hm6
  norm_num at hm6

/-- C8 witness: with one discovered WiFi 6 device at `10.0.0.5` and one
round per stream, the key `(10.0.0.5, 1000)` registered by the WiFi 6
stream is not registered by the WiFi 4 stream. -/
theorem streams_register_disjoint_keys_witness :
    ("10.0.0.5", 1000) ∈ stream_keys oneWifi6Device ["10.0.0.5"] 6 1000 1 ∧
    ("10.0.0.5", 1000) ∉ stream_keys oneWifi6Device ["10.0.0.5"] 4 2000 1 :=
  have hm : ("10.0.0.5", 1000) ∈ stream_keys oneWifi6Device ["10.0.0.5"] 6 1000 1 :=
    by decide
  ⟨hm, streams_register_disjoint_keys oneWifi6Device ["10.0.0.5"] 1
      ("10.0.0.5", 1000) hm⟩

/-! ## Claim C9 -/

/-- C9: discovery registration is first-reply-wins per address: folding any
sequence of discovery replies from the empty device map leaves, for every
address, exactly the parse of the first valid reply from that address
(`none` when there is none) — so a second valid reply from an
already-known address creates no new entry and never overrides the stored
identifier or mode. -/
theorem discovery_first_reply_wins (rs : List (IP × String)) (a : IP) :
    run_discovery rs a = first_valid_reply a rs :=
  foldl_discovery_of_unknown rs (fun _ => none) a rfl

/-! ## Claim C10 -/

/-- C10: a discovery reply with the marker and a third field that does not
parse as an integer is not rejected: the parser reports the warning
(`true`) and yields the device entry with the default mode 6 — the same
default used when the mode field is absent — and `discovery_step` still
registers the device when its address is new. -/
theorem invalid_mode_defaults_to_6 :
    (∀ (raw : String) (p : List Char),
      "ESP_RECEIVER_ID:".data.isPrefixOf (py_strip raw.data) = true →
      (py_split ':' (py_strip raw.data)).get? 2 = some p →
      pythonInt? (py_strip p) = none →
      parse_reply raw =
        (some (String.mk (py_strip ((py_split ':' (py_strip raw.data)).getD 1 [])),
          6), true))
    ∧ parse_reply "ESP_RECEIVER_ID:abc:xyz" = (some ("abc", 6), true)
    ∧ parse_reply "ESP_RECEIVER_ID:abc" = (some ("abc", 6), false)
    ∧ (∀ (devices : IP → Option (String × ℤ)) (ip : IP) (raw : String)
        (e : String × ℤ), devices ip = none → (parse_reply raw).1 = some e →
        discovery_step devices (ip, raw) ip = some e) := by
  refine ⟨?_, by decide, by decide, ?_⟩
  · intro raw p h1 h2 h3
    simp only [parse_reply]
    rw [if_pos h1, h2]
    dsimp only
    rw [h3]
  · intro devices ip raw e hdev hparse
    unfold discovery_step
    rw [hparse]
    dsimp only
    rw [hdev]
    simp

/-- C10 witness: the reply `ESP_RECEIVER_ID:abc:xyz` from a new address is
registered as `("abc", 6)` with the invalid-mode warning. -/
theorem invalid_mode_defaults_to_6_witness :
    "ESP_RECEIVER_ID:".data.isPrefixOf
      (py_strip "ESP_RECEIVER_ID:abc:xyz".data) = true ∧
    (py_split ':' (py_strip "ESP_RECEIVER_ID:abc:xyz".data)).get? 2 =
      some "xyz".data ∧
    pythonInt? (py_strip "xyz".data) = none ∧
    parse_reply "ESP_RECEIVER_ID:abc:xyz" =
      (some (String.mk (py_strip
        ((py_split ':' (py_strip "ESP_RECEIVER_ID:abc:xyz".data)).getD 1 [])),
        6), true) ∧
    (fun _ : IP => (none : Option (String × ℤ))) "10.0.0.9" = none ∧
    (parse_reply "ESP_RECEIVER_ID:abc:xyz").1 = some ("abc", 6) ∧
    discovery_step (fun _ => none) ("10.0.0.9", "ESP_RECEIVER_ID:abc:xyz")
      "10.0.0.9" = some ("abc", 6) :=
  have h1 : "ESP_RECEIVER_ID:".data.isPrefixOf
      (py_strip "ESP_RECEIVER_ID:abc:xyz".data) = true := by decide
  have h2 : (py_split ':' (py_strip "ESP_RECEIVER_ID:abc:xyz".data)).get? 2 =
      some "xyz".data := by decide
  have h3 : pythonInt? (py_strip "xyz".data) = none := by decide
  have h4 : (fun _ : IP => (none : Option (String × ℤ))) "10.0.0.9" = none := rfl
  have h5 : (parse_reply "ESP_RECEIVER_ID:abc:xyz").1 = some ("abc", 6) := by
    decide
  ⟨h1, h2, h3, invalid_mode_defaults_to_6.1 "ESP_RECEIVER_ID:abc:xyz" "xyz".data
      h1 h2 h3, h4, h5,
    invalid_mode_defaults_to_6.2.2.2 (fun _ => none) "10.0.0.9"
      "ESP_RECEIVER_ID:abc:xyz" ("abc", 6) h4 h5⟩

end GroupSender
